import Mathlib

/-!
Verification development for the coverage-map viewport engine
(`src/components/Map/Map.js`). The component's pure logic and its reactive
state transitions are embedded shallowly: coordinates are rationals, React
state is an explicit `MapState` record, and every effect/callback of the
component becomes a case of an explicit `step` function over events.
-/

namespace Explorer

/-- A geographic point `{ lat, lng }`. -/
structure GeoPoint where
  lat : ℚ
  lng : ℚ
deriving DecidableEq, Repr

/-- A bounding box as an ordered pair of opposite corners, each a
`[lng, lat]` pair (longitude first), matching the literal shape
`[[neLng, neLat], [swLng, swLat]]` used in `Map.js`. -/
structure BoundingBox where
  northeast : ℚ × ℚ
  southwest : ℚ × ℚ
deriving DecidableEq, Repr

/-- Literal `US_BOUNDS` from `Map.js`. -/
def US_BOUNDS : BoundingBox :=
  { northeast := (-61.08, 44.84), southwest := (-125, 33) }

/-- Literal `US_EU_BOUNDS` from `Map.js`. -/
def US_EU_BOUNDS : BoundingBox :=
  { northeast := (32.1, 58.63), southwest := (-125, 33) }

/-- Left fold of `max` over a list with an initial accumulator, the shape of
a single-pass running maximum. -/
def foldlMax (x : ℚ) (xs : List ℚ) : ℚ := xs.foldl max x

/-- Left fold of `min` over a list with an initial accumulator, the shape of
a single-pass running minimum. -/
def foldlMin (x : ℚ) (xs : List ℚ) : ℚ := xs.foldl min x

/-- Modelled from the spec: `findBounds` is imported from `utils/location`,
which is not among the sources here. Per spec §4.1 it is a single pass
computing `maxLat, minLat, maxLng, minLng` over all points, returning
`northeast = [maxLng, maxLat]`, `southwest = [minLng, minLat]`, and it fails
(`InvalidArgument`) on an empty point-set (represented by `none`). -/
def findBounds : List GeoPoint → Option BoundingBox
  | [] => none
  | p :: ps =>
    some { northeast := (foldlMax p.lng (ps.map GeoPoint.lng),
                         foldlMax p.lat (ps.map GeoPoint.lat)),
           southwest := (foldlMin p.lng (ps.map GeoPoint.lng),
                         foldlMin p.lat (ps.map GeoPoint.lat)) }

/-- Fit padding: either the uniform number (`10`) or a per-side record, the
two shapes appearing in `fitBoundsOptions`. -/
inductive Padding where
  | uniform (n : ℚ)
  | sides (top left right bottom : ℚ)
deriving DecidableEq, Repr

/-- Literal `MOBILE_PADDING` from `Map.js`. -/
def MOBILE_PADDING : Padding := .sides 10 10 10 450

/-- Literal `DESKTOP_PADDING` from `Map.js`. -/
def DESKTOP_PADDING : Padding := .sides 200 600 200 200

/-- Fit options `{ padding, animate }` handed to the rendering surface. -/
structure FitOptions where
  padding : Padding
  animate : Bool
deriving DecidableEq, Repr

/-- Function `fitBoundsOptions` from `Map.js`: `animate = styleLoaded`; desktop wins,
then the info-box mobile padding, otherwise uniform `10`. -/
def fitBoundsOptions (isDesktopOrLaptop showInfoBox styleLoaded : Bool) :
    FitOptions :=
  let animate := styleLoaded
  if isDesktopOrLaptop then { padding := DESKTOP_PADDING, animate }
  else if showInfoBox then { padding := MOBILE_PADDING, animate }
  else { padding := .uniform 10, animate }

/-- A rendered feature as consumed by `handleHotspotClick`:
`geometry.coordinates` is a `[lng, lat]` pair and `properties.address` is the
hotspot's stable identifier. -/
structure Feature where
  coordinates : ℚ × ℚ
  address : String
deriving DecidableEq, Repr, Inhabited

/-- The `{ lat: coordinates[1], lng: coordinates[0] }` conversion used in
both branches of `handleHotspotClick`. -/
def featureGeoPoint (f : Feature) : GeoPoint :=
  { lat := f.coordinates.2, lng := f.coordinates.1 }

/-- Observable effects of one `handleHotspotClick` call: the selection it
emits (via `selectHotspot`), the bounds it sets (via `setBounds`), whether it
invoked `findBounds` at all, and whether the bounds computation failed. -/
structure ClickResult where
  selection : Option String := none
  newBounds : Option BoundingBox := none
  boundsInvoked : Bool := false
  errored : Bool := false
deriving DecidableEq, Repr

/-- Callback `handleHotspotClick` from `Map.js`: exactly one queried feature selects
that hotspot by its `address`; every other count (including zero) takes the
cluster branch, which calls `findBounds` on the coordinates of all features
and passes the result to `setBounds`. A failing `findBounds` (empty input)
yields no bounds update and an error. -/
def handleHotspotClick (features : List Feature) : ClickResult :=
  if features.length = 1 then
    { selection := some features.headI.address }
  else
    match findBounds (features.map featureGeoPoint) with
    | some b => { newBounds := some b, boundsInvoked := true }
    | none => { boundsInvoked := true, errored := true }

/-- Modelled from the spec: the hex-spatial-index type and its decoder
`h3ToGeo` come from the external `h3-js` library (spec §1 puts hex-grid
decoding out of scope, "consumed as a pure function producing coordinates";
the glossary calls an index "decodable to a center coordinate"; §7 says a
malformed value propagates a decode failure). A well-formed index is
represented by the `[lat, lng]` center it decodes to; a malformed one by
`.malformed`. -/
inductive HexIndex where
  | valid (lat lng : ℚ)
  | malformed
deriving DecidableEq, Repr

/-- Modelled from the spec: `h3ToGeo` returns the `[lat, lng]` center of a
well-formed index and propagates a decode failure on a malformed one. -/
def h3ToGeo : HexIndex → Except String (ℚ × ℚ)
  | .valid lat lng => .ok (lat, lng)
  | .malformed => .error "invalid h3 index"

/-- A witness entry of a receipt transaction path element, carrying an
encoded location (`w.location` in `Map.js`). -/
structure RawWitness where
  location : HexIndex
deriving DecidableEq, Repr

/-- A path element of a transaction: `challengee` plus its witness list
(`selectedTxn.path[0]` in `Map.js`). -/
structure PathElem where
  challengee : String
  witnesses : List RawWitness
deriving DecidableEq, Repr

/-- A transaction record as consumed by the `useAsync` resolution: a kind
tag and a path. -/
structure Txn where
  type : String
  path : List PathElem
deriving DecidableEq, Repr

/-- The witness-decoding loop of the `useAsync` body:
`witnesses.map(w => { const [lat, lng] = h3ToGeo(w.location); ... })`.
JavaScript exceptions propagate out of `Array.map`, so the first failing
decode aborts the whole list. -/
def decodeWitnesses : List RawWitness → Except String (List GeoPoint)
  | [] => .ok []
  | w :: ws =>
    match h3ToGeo w.location with
    | .error e => .error e
    | .ok (lat, lng) =>
      match decodeWitnesses ws with
      | .error e => .error e
      | .ok rest => .ok (⟨lat, lng⟩ :: rest)

/-- The React state of `CoverageMap` observable through this core, plus the
context flags feeding `fitBoundsOptions`. `bounds` is the `useState` at
lines 60-62; `selectedTxnHotspot` / `selectedTxnWitnesses` are the `useState`
pairs at lines 51-52; `styleLoaded` at line 50. `selectedTxn` mirrors the
external transaction-selection store's current value. -/
structure MapState where
  isDesktopOrLaptop : Bool
  showInfoBox : Bool
  styleLoaded : Bool
  selectedTxn : Option Txn
  selectedTxnHotspot : Option GeoPoint
  selectedTxnWitnesses : List GeoPoint
  bounds : BoundingBox
deriving DecidableEq, Repr

/-- The `useState` initializer: `isDesktopOrLaptop ? US_EU_BOUNDS :
US_BOUNDS`, evaluated once at mount. -/
def initState (isDesktopOrLaptop : Bool) : MapState :=
  { isDesktopOrLaptop := isDesktopOrLaptop
    showInfoBox := false
    styleLoaded := false
    selectedTxn := none
    selectedTxnHotspot := none
    selectedTxnWitnesses := []
    bounds := if isDesktopOrLaptop then US_EU_BOUNDS else US_BOUNDS }

/-- Derived fit options of a state (the `useMemo` at lines 121-126). -/
def fitOptions (s : MapState) : FitOptions :=
  fitBoundsOptions s.isDesktopOrLaptop s.showInfoBox s.styleLoaded

/-- One reactive input to the component. `geoFix` is a geolocation update
with coordinates present; `hotspotSelected` is a change of the external
`selectedHotspot` (with its witness points already resolved to coordinates);
`selectTxn` is a change of the external `selectedTxn` store (which initiates
an asynchronous resolution); `txnResolved` is the later completion of one
such resolution, carrying the `selectedTxn` value captured when it was
initiated and the hotspot fetched for its challengee; `click` is a pointer
click with its hit-tested features; the last three are the context
inputs. -/
inductive Event where
  | geoFix (lng lat : ℚ)
  | hotspotSelected (focal : GeoPoint) (witnesses : List GeoPoint)
  | hotspotDeselected
  | selectTxn (t : Option Txn)
  | txnResolved (captured : Option Txn) (target : GeoPoint)
  | click (features : List Feature)
  | styleLoad
  | setWideViewport (b : Bool)
  | setShowInfoBox (b : Bool)
deriving DecidableEq, Repr

/-- The `useEffect` at lines 91-102: when `selectedTxnHotspot` /
`selectedTxnWitnesses` change, recompute bounds over the witness points
followed by the focal point, unless the hotspot is absent. -/
def applyTxnBoundsEffect (s : MapState) : MapState :=
  match s.selectedTxnHotspot with
  | none => s
  | some hp =>
    match findBounds (s.selectedTxnWitnesses ++ [⟨hp.lat, hp.lng⟩]) with
    | some b => { s with bounds := b }
    | none => s

/-- The `useAsync` body at lines 104-119, run at completion time with the
`selectedTxn` value it captured: for a `poc_receipts_v1` transaction it
decodes `path[0]`'s witnesses and stores the fetched target hotspot and the
witnesses (any thrown decode failure, or a missing `path[0]`, aborts before
any state update); for anything else it clears both. There is no staleness
check against the current `selectedTxn`. -/
def applyTxnResolution (s : MapState) (captured : Option Txn)
    (target : GeoPoint) : MapState :=
  match captured with
  | some txn =>
    if txn.type = "poc_receipts_v1" then
      match txn.path.head? with
      | none => s
      | some pe =>
        match decodeWitnesses pe.witnesses with
        | .error _ => s
        | .ok ws =>
          applyTxnBoundsEffect
            { s with selectedTxnHotspot := some target,
                     selectedTxnWitnesses := ws }
    else
      applyTxnBoundsEffect
        { s with selectedTxnHotspot := none, selectedTxnWitnesses := [] }
  | none =>
    applyTxnBoundsEffect
      { s with selectedTxnHotspot := none, selectedTxnWitnesses := [] }

/-- One transition of the component, per event, traced from the effects and
callbacks of `Map.js`. -/
def step (s : MapState) : Event → MapState
  | .geoFix lng lat =>
    match findBounds [⟨lat, lng⟩] with
    | some b => { s with bounds := b }
    | none => s
  | .hotspotSelected focal witnesses =>
    match findBounds (witnesses ++ [focal]) with
    | some b => { s with bounds := b }
    | none => s
  | .hotspotDeselected => s
  | .selectTxn t => { s with selectedTxn := t }
  | .txnResolved captured target => applyTxnResolution s captured target
  | .click features =>
    match (handleHotspotClick features).newBounds with
    | some b => { s with bounds := b }
    | none => s
  | .styleLoad => { s with styleLoaded := true }
  | .setWideViewport b => { s with isDesktopOrLaptop := b }
  | .setShowInfoBox b => { s with showInfoBox := b }

/-- Folding `step` over a sequence of events. -/
def run (s : MapState) : List Event → MapState
  | [] => s
  | e :: es => run (step s e) es

/-- Context inputs: the three inputs of `fitBoundsOptions`, none of which is
a selection source. -/
def isContextEvent : Event → Bool
  | .styleLoad => true
  | .setWideViewport _ => true
  | .setShowInfoBox _ => true
  | _ => false

/-- A receipt transaction "A" with no witnesses, used to exercise the stale
resolution interleaving. -/
def txnA : Txn :=
  { type := "poc_receipts_v1",
    path := [{ challengee := "hotspotA", witnesses := [] }] }

/-- A receipt transaction "B" with no witnesses. -/
def txnB : Txn :=
  { type := "poc_receipts_v1",
    path := [{ challengee := "hotspotB", witnesses := [] }] }

/-- The hotspot fetched for `txnA`'s challengee. -/
def targetA : GeoPoint := { lat := 10, lng := 20 }

/-- The hotspot fetched for `txnB`'s challengee. -/
def targetB : GeoPoint := { lat := 30, lng := 40 }

/-- The interleaving in which A's resolution is still in flight when the
selection changes to B: A is initiated, then B is initiated; B's resolution
completes and applies; then A's stale resolution completes and applies. -/
def staleTrace : List Event :=
  [.selectTxn (some txnA), .selectTxn (some txnB),
   .txnResolved (some txnB) targetB, .txnResolved (some txnA) targetA]

/-- A path element with a single malformed witness location. -/
def badPathElem : PathElem :=
  { challengee := "targetC", witnesses := [{ location := .malformed }] }

/-- A receipt transaction whose only witness has a malformed location. -/
def badTxn : Txn := { type := "poc_receipts_v1", path := [badPathElem] }

theorem le_foldlMax (x : ℚ) (xs : List ℚ) : x ≤ foldlMax x xs := by
  induction xs generalizing x with
  | nil => exact le_refl x
  | cons y ys ih =>
    exact le_trans (le_max_left x y) (ih (max x y))

theorem mem_le_foldlMax {y : ℚ} {xs : List ℚ} (x : ℚ) (h : y ∈ xs) :
    y ≤ foldlMax x xs := by
  induction xs generalizing x with
  | nil => cases h
  | cons z zs ih =>
    rcases List.mem_cons.mp h with h1 | h2
    · subst h1
      exact le_trans (le_max_right x y) (le_foldlMax (max x y) zs)
    · exact ih (max x z) h2

theorem foldlMax_mem (x : ℚ) (xs : List ℚ) :
    foldlMax x xs = x ∨ foldlMax x xs ∈ xs := by
  induction xs generalizing x with
  | nil => exact Or.inl rfl
  | cons y ys ih =>
    rcases ih (max x y) with h | h
    · rcases max_choice x y with hm | hm
      · exact Or.inl (by rw [foldlMax, List.foldl_cons, ← foldlMax, h, hm])
      · exact Or.inr (by
          rw [foldlMax, List.foldl_cons, ← foldlMax, h, hm]
          exact List.mem_cons_self y ys)
    · exact Or.inr (List.mem_cons_of_mem y h)

theorem foldlMin_le (x : ℚ) (xs : List ℚ) : foldlMin x xs ≤ x := by
  induction xs generalizing x with
  | nil => exact le_refl x
  | cons y ys ih =>
    exact le_trans (ih (min x y)) (min_le_left x y)

theorem foldlMin_le_mem {y : ℚ} {xs : List ℚ} (x : ℚ) (h : y ∈ xs) :
    foldlMin x xs ≤ y := by
  induction xs generalizing x with
  | nil => cases h
  | cons z zs ih =>
    rcases List.mem_cons.mp h with h1 | h2
    · subst h1
      exact le_trans (foldlMin_le (min x y) zs) (min_le_right x y)
    · exact ih (min x z) h2

theorem foldlMin_mem (x : ℚ) (xs : List ℚ) :
    foldlMin x xs = x ∨ foldlMin x xs ∈ xs := by
  induction xs generalizing x with
  | nil => exact Or.inl rfl
  | cons y ys ih =>
    rcases ih (min x y) with h | h
    · rcases min_choice x y with hm | hm
      · exact Or.inl (by rw [foldlMin, List.foldl_cons, ← foldlMin, h, hm])
      · exact Or.inr (by
          rw [foldlMin, List.foldl_cons, ← foldlMin, h, hm]
          exact List.mem_cons_self y ys)
    · exact Or.inr (List.mem_cons_of_mem y h)

theorem foldlMax_map_mem {α : Type} (f : α → ℚ) (p : α) (ps : List α) :
    foldlMax (f p) (ps.map f) ∈ (p :: ps).map f := by
  rcases foldlMax_mem (f p) (ps.map f) with h | h
  · rw [h, List.map_cons]; exact List.mem_cons_self _ _
  · rw [List.map_cons]; exact List.mem_cons_of_mem _ h

theorem foldlMin_map_mem {α : Type} (f : α → ℚ) (p : α) (ps : List α) :
    foldlMin (f p) (ps.map f) ∈ (p :: ps).map f := by
  rcases foldlMin_mem (f p) (ps.map f) with h | h
  · rw [h, List.map_cons]; exact List.mem_cons_self _ _
  · rw [List.map_cons]; exact List.mem_cons_of_mem _ h

theorem foldlMax_ub {α : Type} (f : α → ℚ) (p q : α) (ps : List α)
    (hq : q ∈ p :: ps) : f q ≤ foldlMax (f p) (ps.map f) := by
  rcases List.mem_cons.mp hq with h1 | h2
  · subst h1; exact le_foldlMax (f q) (ps.map f)
  · exact mem_le_foldlMax (f p) (List.mem_map_of_mem f h2)

theorem foldlMin_lb {α : Type} (f : α → ℚ) (p q : α) (ps : List α)
    (hq : q ∈ p :: ps) : foldlMin (f p) (ps.map f) ≤ f q := by
  rcases List.mem_cons.mp hq with h1 | h2
  · subst h1; exact foldlMin_le (f q) (ps.map f)
  · exact foldlMin_le_mem (f p) (List.mem_map_of_mem f h2)

/-- C1: for every non-empty point-set, `findBounds` returns a bounding box
whose northeast corner is `[max lng, max lat]` and whose southwest corner is
`[min lng, min lat]` over all input points (each corner coordinate is an
upper/lower bound that is attained by some input point); and a single-point
input yields `northeast = southwest`. -/
theorem findBounds_computes_extrema :
    (∀ pts : List GeoPoint, pts ≠ [] →
      ∃ b, findBounds pts = some b ∧
        (∀ p ∈ pts,
          p.lng ≤ b.northeast.1 ∧ p.lat ≤ b.northeast.2 ∧
          b.southwest.1 ≤ p.lng ∧ b.southwest.2 ≤ p.lat) ∧
        b.northeast.1 ∈ pts.map GeoPoint.lng ∧
        b.northeast.2 ∈ pts.map GeoPoint.lat ∧
        b.southwest.1 ∈ pts.map GeoPoint.lng ∧
        b.southwest.2 ∈ pts.map GeoPoint.lat) ∧
    (∀ p : GeoPoint,
      findBounds [p] = some { northeast := (p.lng, p.lat),
                              southwest := (p.lng, p.lat) }) := by
  constructor
  · intro pts hne
    match pts with
    | [] => exact absurd rfl hne
    | p :: ps =>
      refine ⟨_, rfl, ?_, ?_, ?_, ?_, ?_⟩
      · intro q hq
        exact ⟨foldlMax_ub GeoPoint.lng p q ps hq,
               foldlMax_ub GeoPoint.lat p q ps hq,
               foldlMin_lb GeoPoint.lng p q ps hq,
               foldlMin_lb GeoPoint.lat p q ps hq⟩
      · exact foldlMax_map_mem GeoPoint.lng p ps
      · exact foldlMax_map_mem GeoPoint.lat p ps
      · exact foldlMin_map_mem GeoPoint.lng p ps
      · exact foldlMin_map_mem GeoPoint.lat p ps
  · intro p
    rfl

/-- Witness for C1: the theorem applied to the concrete two-point set
`[{lat 1, lng 2}, {lat 3, lng 4}]`, whose box is `NE = (4, 3)`,
`SW = (2, 1)`. -/
theorem findBounds_computes_extrema_witness :
    ([⟨1, 2⟩, ⟨3, 4⟩] : List GeoPoint) ≠ [] ∧
    (∃ b, findBounds [⟨1, 2⟩, ⟨3, 4⟩] = some b ∧
      (∀ p ∈ ([⟨1, 2⟩, ⟨3, 4⟩] : List GeoPoint),
        p.lng ≤ b.northeast.1 ∧ p.lat ≤ b.northeast.2 ∧
        b.southwest.1 ≤ p.lng ∧ b.southwest.2 ≤ p.lat) ∧
      b.northeast.1 ∈ ([⟨1, 2⟩, ⟨3, 4⟩] : List GeoPoint).map GeoPoint.lng ∧
      b.northeast.2 ∈ ([⟨1, 2⟩, ⟨3, 4⟩] : List GeoPoint).map GeoPoint.lat ∧
      b.southwest.1 ∈ ([⟨1, 2⟩, ⟨3, 4⟩] : List GeoPoint).map GeoPoint.lng ∧
      b.southwest.2 ∈ ([⟨1, 2⟩, ⟨3, 4⟩] : List GeoPoint).map GeoPoint.lat) :=
  ⟨by decide, findBounds_computes_extrema.1 [⟨1, 2⟩, ⟨3, 4⟩] (by decide)⟩

/-- C4: the resolved fit options have `animate = false` whenever
`mapReady = false` (the `styleLoaded` flag), regardless of the other two
flags, and `animate = true` whenever `mapReady = true`. -/
theorem fitBoundsOptions_animate_iff_ready :
    ∀ isDesktopOrLaptop showInfoBox : Bool,
      (fitBoundsOptions isDesktopOrLaptop showInfoBox false).animate = false ∧
      (fitBoundsOptions isDesktopOrLaptop showInfoBox true).animate = true := by
  decide

/-- C5: the padding rules are first-match-wins in the fixed order: a wide
viewport yields the desktop padding (whose left component is strictly the
largest), else a narrow viewport with a visible overlay yields the
bottom-biased mobile padding, else uniform `10`; in particular with both
`isWideViewport` and `overlayVisible` true the desktop padding wins. -/
theorem fitBoundsOptions_priority :
    (∀ showInfoBox styleLoaded : Bool,
      (fitBoundsOptions true showInfoBox styleLoaded).padding =
        DESKTOP_PADDING) ∧
    (∀ styleLoaded : Bool,
      (fitBoundsOptions false true styleLoaded).padding = MOBILE_PADDING) ∧
    (∀ styleLoaded : Bool,
      (fitBoundsOptions false false styleLoaded).padding = .uniform 10) ∧
    (∀ styleLoaded : Bool,
      (fitBoundsOptions true true styleLoaded).padding = DESKTOP_PADDING) ∧
    (DESKTOP_PADDING = .sides 200 600 200 200 ∧
      (200 : ℚ) < 600) ∧
    (MOBILE_PADDING = .sides 10 10 10 450 ∧ (10 : ℚ) < 450) := by
  refine ⟨?_, ?_, ?_, ?_, ⟨rfl, by norm_num⟩, ⟨rfl, by norm_num⟩⟩ <;> decide

/-- C3 (code bug): on zero hit features `handleHotspotClick` does not take a
no-outcome path; it enters the cluster branch and invokes `findBounds` on an
empty point-set, which fails (spec §4.1: `InvalidArgument`), so the handler
errors. (No selection is emitted and no bounds value is produced, but the
bounds computation is invoked, contrary to the claim.) -/
theorem handleHotspotClick_zero_features :
    handleHotspotClick [] =
      { selection := none, newBounds := none,
        boundsInvoked := true, errored := true } := rfl

/-- C6: exactly one hit feature emits a single selection carrying that
feature's `address` and sets no bounds; more than one hit feature emits no
selection and sets bounds to `findBounds` over the coordinates of all hit
features (no deduplication); concretely, hits at `(lat 1, lng 2)` and
`(lat 3, lng 4)` produce the box `northeast = (4, 3)`,
`southwest = (2, 1)`. -/
theorem handleHotspotClick_disambiguation :
    (∀ features : List Feature, features.length = 1 →
      handleHotspotClick features =
        { selection := some features.headI.address }) ∧
    (∀ features : List Feature, 1 < features.length →
      (handleHotspotClick features).selection = none ∧
      (handleHotspotClick features).newBounds =
        findBounds (features.map featureGeoPoint)) ∧
    (handleHotspotClick [{ coordinates := (2, 1), address := "a" }]).selection
      = some "a" ∧
    handleHotspotClick [{ coordinates := (2, 1), address := "a" },
                        { coordinates := (4, 3), address := "b" }] =
      { newBounds := some { northeast := (4, 3), southwest := (2, 1) },
        boundsInvoked := true } := by
  refine ⟨?_, ?_, by decide, by decide⟩
  · intro features h
    rw [handleHotspotClick, if_pos h]
  · intro features h
    have hne : ¬ features.length = 1 := by omega
    rw [handleHotspotClick, if_neg hne]
    have hmapne : features.map featureGeoPoint ≠ [] := by
      intro hcon
      have := List.map_eq_nil_iff.mp hcon
      subst this
      simp at h
    match hfb : findBounds (features.map featureGeoPoint) with
    | some b => exact ⟨rfl, rfl⟩
    | none =>
      cases hmap : features.map featureGeoPoint with
      | nil => exact absurd hmap hmapne
      | cons q qs => rw [hmap] at hfb; exact absurd hfb (by simp [findBounds])

/-- Witness for C6: the theorem applied to concrete one- and two-feature
inputs. -/
theorem handleHotspotClick_disambiguation_witness :
    ([{ coordinates := (2, 1), address := "a" }] : List Feature).length = 1 ∧
    handleHotspotClick [{ coordinates := (2, 1), address := "a" }] =
      { selection := some "a" } ∧
    1 < ([{ coordinates := (2, 1), address := "a" },
          { coordinates := (4, 3), address := "b" }] : List Feature).length ∧
    (handleHotspotClick [{ coordinates := (2, 1), address := "a" },
                         { coordinates := (4, 3), address := "b" }]).selection
      = none :=
  ⟨rfl,
   handleHotspotClick_disambiguation.1
     [{ coordinates := (2, 1), address := "a" }] rfl,
   by decide,
   (handleHotspotClick_disambiguation.2.1
     [{ coordinates := (2, 1), address := "a" },
      { coordinates := (4, 3), address := "b" }] (by decide)).1⟩

theorem step_context_preserves_bounds (s : MapState) (e : Event)
    (h : isContextEvent e = true) : (step s e).bounds = s.bounds := by
  cases e <;> first | rfl | exact Bool.noConfusion h

theorem run_context_preserves_bounds (s : MapState) (es : List Event)
    (h : ∀ e ∈ es, isContextEvent e = true) : (run s es).bounds = s.bounds := by
  induction es generalizing s with
  | nil => rfl
  | cons e es ih =>
    rw [run, ih (step s e) (fun x hx => h x (List.mem_cons_of_mem e hx))]
    exact step_context_preserves_bounds s e (h e (List.mem_cons_self e es))

/-- C2 (code bug): the `useAsync` resolution applies its `setSelectedTxnHotspot`
and `setSelectedTxnWitnesses` side effects with no staleness check, so a
resolution for transaction A that is still in flight when the selection
changes to B applies its result anyway if it completes after B's: in the
concrete interleaving `staleTrace` (A initiated, B initiated, B's resolution
applied, A's stale resolution applied), B's resolution first establishes B's
hotspot and bounds, yet the final state — whose current selection is still
B — carries A's hotspot and A's bounds, which differ from B's. -/
theorem stale_resolution_overwrites_newer :
    (run (initState true) (staleTrace.take 3)).selectedTxnHotspot
      = some targetB ∧
    (run (initState true) (staleTrace.take 3)).bounds
      = { northeast := (40, 30), southwest := (40, 30) } ∧
    (run (initState true) staleTrace).selectedTxn = some txnB ∧
    (run (initState true) staleTrace).selectedTxnHotspot = some targetA ∧
    (run (initState true) staleTrace).bounds
      = { northeast := (20, 10), southwest := (20, 10) } ∧
    targetA ≠ targetB := by
  decide

/-- C7: before any selection source has fired — that is, after any sequence
of context-only inputs, including the empty one — `bounds` equals the fixed
device-class default chosen once at startup: `US_EU_BOUNDS` on a wide
(desktop-class) viewport, `US_BOUNDS` otherwise. -/
theorem default_bounds_before_any_source (d : Bool) (es : List Event)
    (h : ∀ e ∈ es, isContextEvent e = true) :
    (run (initState d) es).bounds = if d then US_EU_BOUNDS else US_BOUNDS := by
  rw [run_context_preserves_bounds (initState d) es h]
  rfl

/-- Witness for C7: both device classes, with a nonempty context-only event
sequence. -/
theorem default_bounds_before_any_source_witness :
    (∀ e ∈ [Event.styleLoad, Event.setShowInfoBox true],
      isContextEvent e = true) ∧
    (run (initState true) [Event.styleLoad, Event.setShowInfoBox true]).bounds
      = (if true then US_EU_BOUNDS else US_BOUNDS) ∧
    (run (initState false) [Event.styleLoad, Event.setShowInfoBox true]).bounds
      = (if false then US_EU_BOUNDS else US_BOUNDS) :=
  ⟨by decide,
   default_bounds_before_any_source true _ (by decide),
   default_bounds_before_any_source false _ (by decide)⟩

/-- C8: a transition triggered only by a context change (device class
reclassification, overlay visibility toggle, or the surface-ready signal)
leaves the `bounds` component of the state unchanged. -/
theorem context_change_preserves_bounds (s : MapState) (e : Event)
    (h : isContextEvent e = true) : (step s e).bounds = s.bounds :=
  step_context_preserves_bounds s e h

/-- Witness for C8: the surface-ready signal on the initial desktop state. -/
theorem context_change_preserves_bounds_witness :
    isContextEvent Event.styleLoad = true ∧
    (step (initState true) Event.styleLoad).bounds = (initState true).bounds :=
  ⟨rfl, context_change_preserves_bounds (initState true) Event.styleLoad rfl⟩

theorem decodeWitnesses_error_of_malformed {ws : List RawWitness}
    (h : ∃ w ∈ ws, w.location = HexIndex.malformed) :
    ∃ e, decodeWitnesses ws = .error e := by
  induction ws with
  | nil =>
    obtain ⟨w, hw, _⟩ := h
    cases hw
  | cons w ws ih =>
    obtain ⟨v, hv, hloc⟩ := h
    rcases List.mem_cons.mp hv with h1 | h2
    · subst h1
      refine ⟨"invalid h3 index", ?_⟩
      simp only [decodeWitnesses, hloc, h3ToGeo]
    · simp only [decodeWitnesses]
      cases hw : h3ToGeo w.location with
      | error e => exact ⟨e, rfl⟩
      | ok p =>
        obtain ⟨e, he⟩ := ih ⟨v, h2, hloc⟩
        cases p with
        | mk lat lng =>
          rw [he]
          exact ⟨e, rfl⟩

/-- C9: if the captured transaction is a recognized receipt whose first path
element has some witness with a malformed (undecodable) location, the
resolution aborts as a whole: the resulting state is exactly the previous
one — no witness is dropped individually, `selectedTxnHotspot` and
`selectedTxnWitnesses` are not updated, and `bounds` is untouched. -/
theorem malformed_witness_aborts_resolution (s : MapState) (txn : Txn)
    (target : GeoPoint) (pe : PathElem)
    (htype : txn.type = "poc_receipts_v1")
    (hpath : txn.path.head? = some pe)
    (hbad : ∃ w ∈ pe.witnesses, w.location = HexIndex.malformed) :
    step s (.txnResolved (some txn) target) = s := by
  obtain ⟨e, he⟩ := decodeWitnesses_error_of_malformed hbad
  simp only [step, applyTxnResolution, htype, if_true, hpath, he]

/-- Witness for C9: the resolution of `badTxn` (single malformed witness)
leaves the initial desktop state exactly in place. -/
theorem malformed_witness_aborts_resolution_witness :
    badTxn.type = "poc_receipts_v1" ∧
    badTxn.path.head? = some badPathElem ∧
    (∃ w ∈ badPathElem.witnesses, w.location = HexIndex.malformed) ∧
    step (initState true) (.txnResolved (some badTxn) { lat := 1, lng := 2 })
      = initState true :=
  ⟨rfl, rfl, ⟨{ location := .malformed }, List.mem_cons_self _ _, rfl⟩,
   malformed_witness_aborts_resolution (initState true) badTxn
     { lat := 1, lng := 2 } badPathElem rfl rfl
     ⟨{ location := .malformed }, List.mem_cons_self _ _, rfl⟩⟩

theorem step_styleLoaded_mono (s : MapState) (e : Event)
    (h : s.styleLoaded = true) : (step s e).styleLoaded = true := by
  cases e <;>
    simp only [step, applyTxnResolution, applyTxnBoundsEffect] <;>
    (repeat' split) <;>
    simp_all

theorem fitBoundsOptions_animate_eq :
    ∀ a b c : Bool, (fitBoundsOptions a b c).animate = c := by
  decide

/-- C10: the surface-ready flag is monotone — the ready signal sets it, no
transition ever resets it — so from any state in which the surface has
signalled readiness, after any further event sequence the flag is still set
and the computed fit options have `animate = true`. -/
theorem styleLoaded_monotone_animate (s : MapState) (es : List Event)
    (h : s.styleLoaded = true) :
    (step s .styleLoad).styleLoaded = true ∧
    (run s es).styleLoaded = true ∧
    (fitOptions (run s es)).animate = true := by
  have hs : (run s es).styleLoaded = true := by
    induction es generalizing s with
    | nil => exact h
    | cons e es ih => exact ih (step s e) (step_styleLoaded_mono s e h)
  exact ⟨rfl, hs, by rw [fitOptions, fitBoundsOptions_animate_eq, hs]⟩

/-- Witness for C10: after the ready signal on the initial narrow-viewport
state, a later geolocation fix and overlay toggle keep `animate = true`. -/
theorem styleLoaded_monotone_animate_witness :
    (step (initState false) Event.styleLoad).styleLoaded = true ∧
    ((step (step (initState false) Event.styleLoad) Event.styleLoad).styleLoaded
        = true ∧
      (run (step (initState false) Event.styleLoad)
        [Event.geoFix 1 2, Event.setShowInfoBox true]).styleLoaded = true ∧
      (fitOptions (run (step (initState false) Event.styleLoad)
        [Event.geoFix 1 2, Event.setShowInfoBox true])).animate = true) :=
  ⟨rfl, styleLoaded_monotone_animate (step (initState false) Event.styleLoad)
    [Event.geoFix 1 2, Event.setShowInfoBox true] rfl⟩

end Explorer
